import Mathlib

/-!
Verification development for a high-precision square-root program
(`Perhitungan.cpp`).  The program computes square roots with two
fixed-point schemes over the arbitrary-precision `mpreal` type:
Newton-Heron iteration and reciprocal-Newton iteration.  It builds an
elevated-precision reference value, derives an automatic initial guess
from the binary exponent of the input, and annotates every iterate with
absolute and relative error against the reference.

The embedding models `mpreal` values as exact rationals (the claims
under study are about the algebraic shape of the recurrences, sequence
lengths, control flow and error taxonomy, not about rounding), and
models the arithmetic library's string parsing, native square root,
decimal serialization and double-precision exponent extraction as the
fields of an explicit library record `MPLib`, since those live outside
the program's own source.  The global MPFR default-precision register is
threaded explicitly as a natural number.
-/

/-! ## Iteration engine -/

/-- One step of the Newton-Heron loop body (`Perhitungan.cpp` lines
56-64): if the current iterate is zero the next iterate is forced to
zero (avoiding the division), otherwise `xnext = (x + a / x) * 0.5`. -/
def heron_step (a x : ℚ) : ℚ :=
  if x = 0 then 0 else (x + a / x) * (1 / 2)

/-- The Newton-Heron iterate sequence: index 0 is the seed, index
`n + 1` is one loop step applied to index `n`. -/
def heron_seq (a x0 : ℚ) : ℕ → ℚ
  | 0 => x0
  | n + 1 => heron_step a (heron_seq a x0 n)

/-- `newton_heron` (`Perhitungan.cpp` lines 51-67): pushes the seed,
runs `iterations` loop steps pushing each new iterate, and returns the
final iterate together with the recorded list. -/
def newton_heron (a x0 : ℚ) (iterations : ℕ) : ℚ × List ℚ :=
  (heron_seq a x0 iterations, (List.range (iterations + 1)).map (heron_seq a x0))

/-- One step of the reciprocal-sqrt loop body (`Perhitungan.cpp` lines
76-77): `y2 = y * y; ynext = y * (1.5 - 0.5 * a * y2)`. -/
def recip_step (a y : ℚ) : ℚ :=
  let y2 := y * y
  y * (3 / 2 - 1 / 2 * a * y2)

/-- The reciprocal-Newton iterate sequence: index 0 is the seed. -/
def recip_seq (a y0 : ℚ) : ℕ → ℚ
  | 0 => y0
  | n + 1 => recip_step a (recip_seq a y0 n)

/-- `reciprocal_sqrt` (`Perhitungan.cpp` lines 70-83): pushes the seed,
runs `iterations` steps pushing each stored reciprocal iterate, and
returns `a * y` (the rescaled square-root estimate) together with the
recorded list of reciprocal iterates. -/
def reciprocal_sqrt (a y0 : ℚ) (iterations : ℕ) : ℚ × List ℚ :=
  (a * recip_seq a y0 iterations, (List.range (iterations + 1)).map (recip_seq a y0))

/-! ## Library abstraction and precision handling

`mpreal` string parsing (which may throw), the native `mpfr::sqrt`,
decimal serialization via `ostringstream`, and the double-precision
extraction `floor((log a / log 2).toDouble())` are operations of the
arithmetic library, not of the program's source; they are abstracted as
the fields of a record.  `parse p s = none` models the `mpreal(string)`
constructor throwing at default precision `p`; `sqrtAt` and `toDecimal`
are total, as their C++ counterparts do not throw. -/

structure MPLib where
  parse : ℕ → String → Option ℚ
  sqrtAt : ℕ → ℚ → ℚ
  toDecimal : ℕ → ℚ → String
  log2floorD : ℚ → ℤ

/-- `digits_to_bits` (`Perhitungan.cpp` lines 34-37):
`ceil(dec_digits * LOG2_10)` with the source's literal constant for
`log2(10)`. -/
def digits_to_bits (dec_digits : ℕ) : ℕ :=
  (Int.ceil ((dec_digits : ℚ) *
    (3321928094887362347870319429489 / 1000000000000000000000000000000))).toNat

/-- The error taxonomy of the specification.  The code reports errors
as distinct message-and-exit paths; each path is mapped to its taxonomy
label.  `InvalidPrecision` is listed in the taxonomy but, as proved
below, is never produced by the code. -/
inductive CompError where
  | InvalidPrecision
  | NegativeInput
  | ParseError
  | DivisionByZero
  | UnknownMethod
  | MissingInitValue
deriving DecidableEq

/-- `auto_initial_guess` (`Perhitungan.cpp` lines 86-98): 0 maps to 0,
negative input throws, and positive input yields
`2 ^ ((exp_floor + 2) / 2)` where `exp_floor` is the library's
double-rounded `floor(log2 a)` and the division is C++ integer division
(truncation toward zero, `Int.div`). -/
def auto_initial_guess (lib : MPLib) (a : ℚ) : Except CompError ℚ :=
  if a = 0 then .ok 0
  else if a < 0 then .error .NegativeInput
  else
    let exp_floor := lib.log2floorD a
    let seed_exp := Int.div (exp_floor + 2) 2
    .ok ((2 : ℚ) ^ seed_exp)

/-- The reference-building block of `main` (`Perhitungan.cpp` lines
187-209), with the MPFR default-precision register threaded explicitly.
The first component of the result is the value of the register when the
block exits; the second is `none` when the elevated-precision re-parse
of the input string throws (the exception propagates before the restore
on line 200 is reached), and otherwise carries the reference value with
its degraded flag. -/
def build_reference (lib : MPLib) (number : String) (a : ℚ)
    (origPrec precDigits : ℕ) : ℕ × Option (ℚ × Bool) :=
  let extraBits := 64
  let refPrec := origPrec + extraBits
  match lib.parse refPrec number with
  | none => (refPrec, none)
  | some aHigh =>
      let refSqrtHigh := lib.sqrtAt refPrec aHigh
      let refStr := lib.toDecimal (precDigits + 20) refSqrtHigh
      match lib.parse origPrec refStr with
      | some reference => (origPrec, some (reference, false))
      | none => (origPrec, some (lib.sqrtAt origPrec a, true))

/-- The initial-guess block of `main` (`Perhitungan.cpp` lines
211-223): manual mode requires a nonempty `--init-value` and parses it
at working precision; any other mode uses the automatic seeder. -/
def guess_x0 (lib : MPLib) (bits : ℕ) (initMode initValue : String)
    (a : ℚ) : Except CompError ℚ :=
  if initMode = "manual" then
    if initValue = "" then .error .MissingInitValue
    else
      match lib.parse bits initValue with
      | none => .error .ParseError
      | some v => .ok v
  else auto_initial_guess lib a

/-- The reciprocal-seed block of `main` (`Perhitungan.cpp` lines
226-246): under the `recip` method a manual value is re-parsed and
inverted (zero is rejected), otherwise the reciprocal of the automatic
seed is used with `1` substituted when the seed is zero.  For other
methods `y0` keeps its default value 0. -/
def guess_y0 (lib : MPLib) (bits : ℕ) (initMode initValue method : String)
    (x0 : ℚ) : Except CompError ℚ :=
  if method = "recip" then
    if initMode = "manual" ∧ initValue ≠ "" then
      match lib.parse bits initValue with
      | none => .error .ParseError
      | some sqrt_guess =>
          if sqrt_guess = 0 then .error .DivisionByZero
          else .ok (1 / sqrt_guess)
    else if x0 = 0 then .ok 1 else .ok (1 / x0)
  else .ok 0

/-- The record of results assembled by `main` for reporting. -/
structure ComputeResult where
  approx : ℚ
  iterates : List ℚ
  reference : ℚ
  degraded : Bool
  builtin : ℚ
deriving DecidableEq

/-- The computational pipeline of `main` (`Perhitungan.cpp` lines
165-277), excluding help/arg handling, timing and printing: configure
precision from the requested digit count (no validation of the digit
count takes place), parse the input, reject negative input, build the
reference, derive the seeds, dispatch on the method and run the chosen
iteration. -/
def main_compute (lib : MPLib) (number : String) (precDigits iterations : ℕ)
    (initMode initValue method : String) : Except CompError ComputeResult :=
  match lib.parse (digits_to_bits precDigits) number with
  | none => .error .ParseError
  | some a =>
    if a < 0 then .error .NegativeInput
    else
      match build_reference lib number a (digits_to_bits precDigits) precDigits with
      | (_, none) => .error .ParseError
      | (_, some (reference, degraded)) =>
        match guess_x0 lib (digits_to_bits precDigits) initMode initValue a with
        | .error e => .error e
        | .ok x0 =>
          match guess_y0 lib (digits_to_bits precDigits) initMode initValue method x0 with
          | .error e => .error e
          | .ok y0 =>
            if method = "heron" then
              .ok ⟨(newton_heron a x0 iterations).1, (newton_heron a x0 iterations).2,
                   reference, degraded, lib.sqrtAt (digits_to_bits precDigits) a⟩
            else if method = "recip" then
              .ok ⟨(reciprocal_sqrt a y0 iterations).1, (reciprocal_sqrt a y0 iterations).2,
                   reference, degraded, lib.sqrtAt (digits_to_bits precDigits) a⟩
            else .error .UnknownMethod

/-- The per-iterate error annotation (`Perhitungan.cpp` lines 109-114
in `save_iterations_csv`, and identically lines 303-314 in `main`):
absolute error `|value - reference|`, and relative error
`abs_err / |reference|` guarded to exactly 0 when the reference is 0. -/
def error_metrics (v reference : ℚ) : ℚ × ℚ :=
  let abs_err := |v - reference|
  let rel_err := if reference = 0 then 0 else abs_err / |reference|
  (abs_err, rel_err)

/-! Concrete library instances used to evaluate the pipeline at
specific inputs. -/

/-- A library whose parses all succeed (every string other than "bad"
reads as 2). -/
def okLib : MPLib where
  parse := fun _ s => if s = "bad" then none else some 2
  sqrtAt := fun _ x => x
  toDecimal := fun _ _ => "ref"
  log2floorD := fun _ => 2

/-- A library whose parse throws at any precision of at least 100,
modelling a failure inside the elevated-precision region. -/
def elevFailLib : MPLib where
  parse := fun p _ => if 100 ≤ p then none else some 2
  sqrtAt := fun _ x => x
  toDecimal := fun _ _ => "ref"
  log2floorD := fun _ => 2

/-- A library that parses "-1" as the negative value -1 and everything
else as 2. -/
def negLib : MPLib where
  parse := fun _ s => if s = "-1" then some (-1) else some 2
  sqrtAt := fun _ x => x
  toDecimal := fun _ _ => "ref"
  log2floorD := fun _ => 2

/-- A library for which the string "zz" is malformed (parse throws) at
every precision while everything else parses as 2. -/
def zzLib : MPLib where
  parse := fun _ s => if s = "zz" then none else some 2
  sqrtAt := fun _ x => x
  toDecimal := fun _ _ => "ref"
  log2floorD := fun _ => 2

/-! ## Helper lemmas -/

lemma newton_heron_length (a x0 : ℚ) (n : ℕ) :
    ((newton_heron a x0 n).2).length = n + 1 := by
  simp [newton_heron]

lemma newton_heron_get (a x0 : ℚ) (n k : ℕ)
    (h : k < ((newton_heron a x0 n).2).length) :
    ((newton_heron a x0 n).2).get ⟨k, h⟩ = heron_seq a x0 k := by
  simp [newton_heron, List.get_eq_getElem]

lemma reciprocal_sqrt_length (a y0 : ℚ) (n : ℕ) :
    ((reciprocal_sqrt a y0 n).2).length = n + 1 := by
  simp [reciprocal_sqrt]

lemma reciprocal_sqrt_get (a y0 : ℚ) (n k : ℕ)
    (h : k < ((reciprocal_sqrt a y0 n).2).length) :
    ((reciprocal_sqrt a y0 n).2).get ⟨k, h⟩ = recip_seq a y0 k := by
  simp [reciprocal_sqrt, List.get_eq_getElem]

lemma auto_initial_guess_not_invalid (lib : MPLib) (a : ℚ) :
    auto_initial_guess lib a ≠ .error .InvalidPrecision := by
  unfold auto_initial_guess
  split
  · exact fun hh => Except.noConfusion hh
  · split
    · intro hh
      injection hh with hh
      exact CompError.noConfusion hh
    · exact fun hh => Except.noConfusion hh

lemma guess_x0_not_invalid (lib : MPLib) (bits : ℕ)
    (initMode initValue : String) (a : ℚ) :
    guess_x0 lib bits initMode initValue a ≠ .error .InvalidPrecision := by
  unfold guess_x0
  split
  · split
    · intro hh
      injection hh with hh
      exact CompError.noConfusion hh
    · split
      · intro hh
        injection hh with hh
        exact CompError.noConfusion hh
      · exact fun hh => Except.noConfusion hh
  · exact auto_initial_guess_not_invalid lib a

lemma guess_y0_not_invalid (lib : MPLib) (bits : ℕ)
    (initMode initValue method : String) (x0 : ℚ) :
    guess_y0 lib bits initMode initValue method x0 ≠ .error .InvalidPrecision := by
  unfold guess_y0
  split
  · split
    · split
      · intro hh
        injection hh with hh
        exact CompError.noConfusion hh
      · split
        · intro hh
          injection hh with hh
          exact CompError.noConfusion hh
        · exact fun hh => Except.noConfusion hh
    · split
      · exact fun hh => Except.noConfusion hh
      · exact fun hh => Except.noConfusion hh
  · exact fun hh => Except.noConfusion hh

/-! ## Claims -/

/-- C1: for every input `a`, every seed `x0`, and every step of the
Newton-Heron method, if the current iterate is nonzero the next iterate
equals `0.5 * (x + a / x)`, and if the current iterate is zero the next
iterate is `0` (absorbing state); the iteration is a total function of
any seed. -/
theorem C1_newton_heron_step_shape (a x0 : ℚ) (n k : ℕ)
    (h : k + 1 < ((newton_heron a x0 n).2).length) :
    ((newton_heron a x0 n).2).get ⟨k + 1, h⟩ =
      if ((newton_heron a x0 n).2).get ⟨k, Nat.lt_of_succ_lt h⟩ = 0 then 0
      else (1 / 2) *
        (((newton_heron a x0 n).2).get ⟨k, Nat.lt_of_succ_lt h⟩
          + a / ((newton_heron a x0 n).2).get ⟨k, Nat.lt_of_succ_lt h⟩) := by
  rw [newton_heron_get, newton_heron_get]
  simp only [heron_seq, heron_step]
  split
  · rfl
  · ring

/-- C1 witness: concrete instance `a = 2`, seed `1`, three iterations,
step `k = 0`. -/
theorem C1_newton_heron_step_shape_witness :
    ((newton_heron 2 1 3).2).get ⟨1, by rw [newton_heron_length]; omega⟩ =
      if ((newton_heron 2 1 3).2).get ⟨0, by rw [newton_heron_length]; omega⟩ = 0 then 0
      else (1 / 2) *
        (((newton_heron 2 1 3).2).get ⟨0, by rw [newton_heron_length]; omega⟩
          + 2 / ((newton_heron 2 1 3).2).get ⟨0, by rw [newton_heron_length]; omega⟩) :=
  C1_newton_heron_step_shape 2 1 3 0 (by rw [newton_heron_length]; omega)

/-- C2: for every input `a`, reciprocal seed `y0`, and every step of
the reciprocal-Newton method, the next stored value equals
`y * (1.5 - 0.5 * a * y^2)`; the stored sequence records the reciprocal
iterates `y_n` themselves, and the reported final square-root estimate
(the first component of the result) equals `a * y_last`. -/
theorem C2_reciprocal_step_shape (a y0 : ℚ) (n : ℕ) :
    (∀ k (h : k + 1 < ((reciprocal_sqrt a y0 n).2).length),
      ((reciprocal_sqrt a y0 n).2).get ⟨k + 1, h⟩ =
        ((reciprocal_sqrt a y0 n).2).get ⟨k, Nat.lt_of_succ_lt h⟩ *
          (3 / 2 - 1 / 2 * a *
            (((reciprocal_sqrt a y0 n).2).get ⟨k, Nat.lt_of_succ_lt h⟩) ^ 2))
  ∧ (reciprocal_sqrt a y0 n).1 =
      a * ((reciprocal_sqrt a y0 n).2).get
        ⟨n, by rw [reciprocal_sqrt_length]; omega⟩ := by
  constructor
  · intro k h
    rw [reciprocal_sqrt_get, reciprocal_sqrt_get]
    simp only [recip_seq, recip_step]
    ring
  · rw [reciprocal_sqrt_get]
    rfl

/-- C2 witness: concrete instance `a = 2`, seed `1`, one iteration. -/
theorem C2_reciprocal_step_shape_witness :
    ((reciprocal_sqrt 2 1 1).2).get ⟨1, by rw [reciprocal_sqrt_length]; omega⟩ =
      ((reciprocal_sqrt 2 1 1).2).get ⟨0, by rw [reciprocal_sqrt_length]; omega⟩ *
        (3 / 2 - 1 / 2 * 2 *
          (((reciprocal_sqrt 2 1 1).2).get ⟨0, by rw [reciprocal_sqrt_length]; omega⟩) ^ 2)
  ∧ (reciprocal_sqrt 2 1 1).1 =
      2 * ((reciprocal_sqrt 2 1 1).2).get ⟨1, by rw [reciprocal_sqrt_length]; omega⟩ :=
  ⟨(C2_reciprocal_step_shape 2 1 1).1 0 (by rw [reciprocal_sqrt_length]; omega),
   (C2_reciprocal_step_shape 2 1 1).2⟩

/-- C3: for both methods, every seed, and every non-negative iteration
count `n`, the returned iterate sequence has length `n + 1` with index 0
equal to the seed; `n = 0` yields a sequence containing only the seed,
unmodified by any iteration logic. -/
theorem C3_sequence_length_and_seed (a x0 y0 : ℚ) (n : ℕ) :
    ((newton_heron a x0 n).2).length = n + 1
  ∧ ((newton_heron a x0 n).2).head? = some x0
  ∧ ((reciprocal_sqrt a y0 n).2).length = n + 1
  ∧ ((reciprocal_sqrt a y0 n).2).head? = some y0
  ∧ (newton_heron a x0 0).2 = [x0]
  ∧ (reciprocal_sqrt a y0 0).2 = [y0] := by
  refine ⟨newton_heron_length a x0 n, ?_, reciprocal_sqrt_length a y0 n, ?_, ?_, ?_⟩
  · rw [newton_heron, List.range_succ_eq_map]
    simp [heron_seq]
  · rw [reciprocal_sqrt, List.range_succ_eq_map]
    simp [recip_seq]
  · simp [newton_heron, List.range_succ, heron_seq]
  · simp [reciprocal_sqrt, List.range_succ, recip_seq]

/-- C4: the reference builder elevates precision by exactly 64 bits,
re-parses the original decimal input string (not a promoted value) at
the elevated precision, takes the library's native square root there,
serializes it to a decimal string with `workingDigits + 20` digits,
restores the working precision, and re-parses that string at working
precision; if that re-parse fails, the reference falls back to the
native square root computed directly at working precision with the
degraded flag set. -/
theorem C4_reference_builder_algorithm (lib : MPLib) (number : String)
    (a aHigh : ℚ) (origPrec precDigits : ℕ)
    (hparse : lib.parse (origPrec + 64) number = some aHigh) :
    (∀ r, lib.parse origPrec
        (lib.toDecimal (precDigits + 20) (lib.sqrtAt (origPrec + 64) aHigh)) = some r →
      build_reference lib number a origPrec precDigits = (origPrec, some (r, false)))
  ∧ (lib.parse origPrec
        (lib.toDecimal (precDigits + 20) (lib.sqrtAt (origPrec + 64) aHigh)) = none →
      build_reference lib number a origPrec precDigits =
        (origPrec, some (lib.sqrtAt origPrec a, true))) := by
  constructor
  · intro r hr
    simp [build_reference, hparse, hr]
  · intro hr
    simp [build_reference, hparse, hr]

/-- C4 witness: a concrete library run through the normal
(non-degraded) path. -/
theorem C4_reference_builder_algorithm_witness :
    build_reference okLib "2" 2 50 30 = (50, some (2, false)) :=
  (C4_reference_builder_algorithm okLib "2" 2 2 50 30 rfl).1 2 rfl

/-- C5: the automatic guess seeder maps 0 to 0, and every positive
input `a` to `2 ^ seedExponent` where
`seedExponent = (exp_floor + 2) / 2` with C++ integer (truncating)
division and `exp_floor` the binary exponent extracted by the library
via a natural-log ratio rounded through double precision. -/
theorem C5_auto_guess_formula (lib : MPLib) (a : ℚ) :
    auto_initial_guess lib 0 = .ok 0
  ∧ (0 < a →
      auto_initial_guess lib a =
        .ok ((2 : ℚ) ^ (Int.div (lib.log2floorD a + 2) 2))) := by
  constructor
  · simp [auto_initial_guess]
  · intro ha
    have h0 : ¬ a = 0 := ne_of_gt ha
    have h1 : ¬ a < 0 := not_lt.mpr (le_of_lt ha)
    simp [auto_initial_guess, h0, h1]

/-- C5 witness: concrete library, inputs 0 and 4. -/
theorem C5_auto_guess_formula_witness :
    auto_initial_guess okLib 0 = .ok 0
  ∧ auto_initial_guess okLib 4 =
      .ok ((2 : ℚ) ^ (Int.div (okLib.log2floorD 4 + 2) 2)) :=
  ⟨(C5_auto_guess_formula okLib 4).1,
   (C5_auto_guess_formula okLib 4).2 (by norm_num)⟩

/-- C6 counterexample: a failure of the elevated-precision re-parse of
the input (the only failable operation inside the elevated region)
exits the reference-building block with the precision register still at
the elevated value `50 + 64 = 114`, not restored to the working value
50 — the straight-line restore on line 200 is skipped when the
exception propagates, so the claim that precision is restored on every
exit path, including failure of the elevated computation, is false. -/
theorem C6_counterexample_no_restore_on_failure :
    build_reference elevFailLib "2" 2 50 30 = (114, none) ∧ (114 : ℕ) ≠ 50 := by
  constructor
  · rfl
  · decide

/-- C6 amended: the precision register is restored to the prior working
value on the normal path and on the degraded-reference path (whose
re-parse failure occurs after the restore), i.e. whenever the
elevated-precision re-parse of the input succeeds; when that re-parse
itself fails, the block exits with the register still at the elevated
value `origPrec + 64`. -/
theorem C6_restore_only_on_elevated_success (lib : MPLib) (number : String)
    (a : ℚ) (origPrec precDigits : ℕ) :
    ((∃ q, lib.parse (origPrec + 64) number = some q) →
      (build_reference lib number a origPrec precDigits).1 = origPrec)
  ∧ (lib.parse (origPrec + 64) number = none →
      (build_reference lib number a origPrec precDigits).1 = origPrec + 64) := by
  constructor
  · rintro ⟨q, hq⟩
    simp only [build_reference, hq]
    cases hr : lib.parse origPrec
        (lib.toDecimal (precDigits + 20) (lib.sqrtAt (origPrec + 64) q)) <;>
      simp [hr]
  · intro hq
    simp [build_reference, hq]

/-- C6 amended witness: a run restoring the precision and a run leaving
it elevated. -/
theorem C6_restore_only_on_elevated_success_witness :
    (build_reference okLib "2" 2 50 30).1 = 50
  ∧ (build_reference elevFailLib "bad" 2 50 30).1 = 50 + 64 :=
  ⟨(C6_restore_only_on_elevated_success okLib "2" 2 50 30).1 ⟨2, rfl⟩,
   (C6_restore_only_on_elevated_success elevFailLib "bad" 2 50 30).2 rfl⟩

/-- C7 counterexample: with a requested decimal-digit count of 0 the
pipeline is not rejected — it proceeds (here to a successful result)
and in particular never fails with `InvalidPrecision`; no zero-digit
check exists in the code. -/
theorem C7_counterexample_zero_digits_not_rejected :
    main_compute okLib "2" 0 5 "auto" "" "heron" ≠ .error .InvalidPrecision
  ∧ (main_compute okLib "2" 0 5 "auto" "" "heron").isOk = true := by
  have hok : (main_compute okLib "2" 0 5 "auto" "" "heron").isOk = true := by decide
  refine ⟨?_, hok⟩
  intro h
  rw [h] at hok
  exact Bool.noConfusion hok

/-- C7 amended: the code performs no validation of the requested digit
count: `digits_to_bits 0 = 0`, the pipeline proceeds to configure
precision 0, and no invocation whatsoever produces an
`InvalidPrecision` failure. -/
theorem C7_no_invalid_precision_rejection (lib : MPLib) (number : String)
    (precDigits iterations : ℕ) (initMode initValue method : String) :
    digits_to_bits 0 = 0
  ∧ main_compute lib number precDigits iterations initMode initValue method ≠
      .error .InvalidPrecision := by
  refine ⟨by simp [digits_to_bits], ?_⟩
  intro h
  unfold main_compute at h
  split at h
  · injection h with h
    exact CompError.noConfusion h
  · split at h
    · injection h with h
      exact CompError.noConfusion h
    · split at h
      · injection h with h
        exact CompError.noConfusion h
      · split at h
        next e he =>
          injection h with h
          exact guess_x0_not_invalid _ _ _ _ _ (h ▸ he)
        next x0 hx0 =>
          split at h
          next e he =>
            injection h with h
            exact guess_y0_not_invalid _ _ _ _ _ _ (h ▸ he)
          next y0 hy0 =>
            split at h
            · exact Except.noConfusion h
            · split at h
              · exact Except.noConfusion h
              · injection h with h
                exact CompError.noConfusion h

/-- C7 amended witness: the amended statement instantiated at a
concrete library and a zero digit count. -/
theorem C7_no_invalid_precision_rejection_witness :
    digits_to_bits 0 = 0
  ∧ main_compute okLib "2" 0 5 "auto" "" "heron" ≠ .error .InvalidPrecision :=
  C7_no_invalid_precision_rejection okLib "2" 0 5 "auto" "" "heron"

/-- C8: for every negative parsed input value the pipeline fails with
`NegativeInput` and returns no partial result, and the automatic guess
seeder likewise rejects every negative input. -/
theorem C8_negative_input_rejected (lib : MPLib) (number : String)
    (precDigits iterations : ℕ) (initMode initValue method : String) (a : ℚ)
    (hp : lib.parse (digits_to_bits precDigits) number = some a)
    (ha : a < 0) :
    main_compute lib number precDigits iterations initMode initValue method =
      .error .NegativeInput
  ∧ ∀ b : ℚ, b < 0 → auto_initial_guess lib b = .error .NegativeInput := by
  constructor
  · unfold main_compute
    rw [hp]
    simp [ha]
  · intro b hb
    have hb0 : ¬ b = 0 := ne_of_lt hb
    simp [auto_initial_guess, hb0, hb]

/-- C8 witness: the input "-1" parsed as -1 is rejected. -/
theorem C8_negative_input_rejected_witness :
    main_compute negLib "-1" 50 5 "auto" "" "heron" = .error .NegativeInput
  ∧ auto_initial_guess negLib (-1) = .error .NegativeInput :=
  ⟨(C8_negative_input_rejected negLib "-1" 50 5 "auto" "" "heron" (-1) rfl
      (by norm_num)).1,
   (C8_negative_input_rejected negLib "-1" 50 5 "auto" "" "heron" (-1) rfl
      (by norm_num)).2 (-1) (by norm_num)⟩

/-- C9: for every malformed decimal string supplied as a manual initial
guess (the working-precision parse of the guess throws), the pipeline
fails with `ParseError` — the failure propagates to the caller and is
never silently substituted with a default value. -/
theorem C9_manual_guess_parse_error (lib : MPLib) (number : String)
    (precDigits iterations : ℕ) (initValue method : String) (a : ℚ)
    (hp : lib.parse (digits_to_bits precDigits) number = some a)
    (ha : ¬ a < 0) (hv : initValue ≠ "")
    (hg : lib.parse (digits_to_bits precDigits) initValue = none) :
    main_compute lib number precDigits iterations "manual" initValue method =
      .error .ParseError := by
  unfold main_compute
  have hx : guess_x0 lib (digits_to_bits precDigits) "manual" initValue a =
      .error .ParseError := by
    unfold guess_x0
    rw [if_pos rfl, if_neg hv, hg]
  rcases hbr : build_reference lib number a (digits_to_bits precDigits) precDigits
    with ⟨p, ro⟩
  rcases ro with _ | ⟨r, d⟩
  · simp [hp, ha, hbr]
  · simp [hp, ha, hbr, hx]

/-- C9 witness: the malformed guess string "zz" under manual mode. -/
theorem C9_manual_guess_parse_error_witness :
    main_compute zzLib "2" 50 5 "manual" "zz" "heron" = .error .ParseError :=
  C9_manual_guess_parse_error zzLib "2" 50 5 "zz" "heron" 2 rfl
    (by norm_num) (by decide) rfl

/-- C10: error annotation is a pure total function: for every iterate
value and reference, the absolute error is `|value - reference|`, the
relative error is `abs_err / |reference|` except that it is exactly 0
when the reference is 0 (never a division failure); consequently the
relative error is 0 whenever the value equals the reference exactly,
including when the reference is 0. -/
theorem C10_error_metrics_total (v reference : ℚ) :
    (error_metrics v reference).1 = |v - reference|
  ∧ (error_metrics v reference).2 =
      (if reference = 0 then 0 else |v - reference| / |reference|)
  ∧ (v = reference → (error_metrics v reference).2 = 0) := by
  refine ⟨rfl, rfl, ?_⟩
  intro hv
  subst hv
  simp [error_metrics, sub_self]

/-- C10 witness: exact agreement gives zero relative error, both with a
nonzero reference and with the zero reference. -/
theorem C10_error_metrics_total_witness :
    (error_metrics 5 5).2 = 0 ∧ (error_metrics 0 0).2 = 0 :=
  ⟨(C10_error_metrics_total 5 5).2.2 rfl, (C10_error_metrics_total 0 0).2.2 rfl⟩
